import Mathlib

/-
Shallow embedding of the childrens-book backend service (src/main.py and
src/schemas.py): book lifecycle, price catalog seeding, order creation and
download-link issuance, over an explicit document-store state.

The document store itself (module database: the db handle, create_document,
get_documents) is not part of src/, so the gateway operations are modelled
from the spec (Document Store Gateway: create, read and update-by-filter on
named collections, records keyed by a store-assigned opaque identifier).
Time is passed explicitly as a parameter (unix seconds).
-/

/-- A dynamically typed value, modelling a Python JSON-like value
(the code never inspects metadata or content values, only stores them). -/
inductive Json where
  | str (s : String)
  | num (n : Int)
  | boolean (b : Bool)
  | null
  | arr (xs : List Json)
  | obj (fields : List (String × Json))

/-- A stored document of the book collection (schemas.Book, plus the
updated_at field that update_book stamps onto the raw document). -/
structure BookDoc where
  ownerId : Option String
  meta : List (String × Json)
  json_content : List (String × Json)
  status : String
  priceCents : Int
  progress : Int
  download_url : Option String
  expires_at : Option Nat
  updated_at : Option Nat

/-- A stored document of the price collection (schemas.Price). -/
structure PriceDoc where
  sku : String
  label : String
  amountCents : Int
  currency : String

/-- A stored document of the order collection (schemas.Order). -/
structure OrderDoc where
  bookId : String
  ownerId : Option String
  items : List (List (String × Json))
  subtotalCents : Int
  shippingCents : Int
  discountCents : Int
  totalCents : Int
  currency : String
  status : String

/-- Modelled from the spec: the document store state. Each collection of the
Document Store Gateway is a list of records keyed by a store-assigned opaque
identifier; nextId feeds the identifier generator. -/
structure DB where
  books : List (String × BookDoc)
  prices : List (String × PriceDoc)
  orders : List (String × OrderDoc)
  nextId : Nat

/-- Errors a handler can surface: HTTP 404, HTTP 400, HTTP 500
(store unconfigured), and the two unhandled exceptions that escape the
handlers (bson InvalidId on a malformed identifier, pydantic validation
failure on record construction), which the framework surfaces as 500. -/
inductive Err where
  | notFound (detail : String)
  | badRequest (detail : String)
  | unavailable (detail : String)
  | invalidId (given : String)
  | validationError (detail : String)

/-- Hexadecimal digit test (both cases), as bson ObjectId accepts. -/
def isHexChar (c : Char) : Bool :=
  (decide ('0' ≤ c) && decide (c ≤ '9')) ||
  (decide ('a' ≤ c) && decide (c ≤ 'f')) ||
  (decide ('A' ≤ c) && decide (c ≤ 'F'))

/-- A well-formed store key as bson ObjectId requires of a string:
exactly 24 hexadecimal characters. -/
def isValidObjectId (s : String) : Bool :=
  s.length == 24 && s.toList.all isHexChar

/-- ASCII lowering of one character, as ObjectId normalization of hex
digits needs. -/
def toLowerChar (c : Char) : Char :=
  if 65 ≤ c.toNat ∧ c.toNat ≤ 90 then Char.ofNat (c.toNat + 32) else c

/-- ASCII lowering of a string. -/
def lowerStr (s : String) : String := String.mk (s.toList.map toLowerChar)

/-- bson.ObjectId applied to a route string: normalizes a well-formed
24-hex-char identifier (case-insensitively, so compare lowercased), raises
InvalidId otherwise (modelled as none). -/
def parseOid (s : String) : Option String :=
  if isValidObjectId s then some (lowerStr s) else none

/-- Modelled from the spec: the store-assigned opaque identifier for the
nth created document, a 24-character lowercase hex string. -/
def freshId (n : Nat) : String :=
  let ds := Nat.toDigits 16 n
  String.mk (List.replicate (24 - ds.length) '0' ++ ds)

/-- Modelled from the spec: Document Store Gateway create_document on the
book collection: insert one record under a fresh identifier and return it. -/
def create_document_book (db : DB) (b : BookDoc) : String × DB :=
  let bid := freshId db.nextId
  (bid, { db with books := db.books ++ [(bid, b)], nextId := db.nextId + 1 })

/-- Modelled from the spec: Document Store Gateway create_document on the
price collection. -/
def create_document_price (db : DB) (p : PriceDoc) : String × DB :=
  let pid := freshId db.nextId
  (pid, { db with prices := db.prices ++ [(pid, p)], nextId := db.nextId + 1 })

/-- Modelled from the spec: Document Store Gateway create_document on the
order collection. -/
def create_document_order (db : DB) (o : OrderDoc) : String × DB :=
  let oidNew := freshId db.nextId
  (oidNew, { db with orders := db.orders ++ [(oidNew, o)], nextId := db.nextId + 1 })

/-- Modelled from the spec: Document Store Gateway read by identifier filter
(get_documents on the book collection with an _id equality filter). -/
def get_documents_book (db : DB) (oid : String) : List (String × BookDoc) :=
  db.books.filter (fun e => e.1 == oid)

/-- pymongo find_one on the book collection by _id: the first record whose
key equals the identifier, if any. -/
def findBook (l : List (String × BookDoc)) (oid : String) : Option BookDoc :=
  (l.find? (fun e => e.1 == oid)).map (fun e => e.2)

/-- pymongo update_one by _id: apply f to the first record whose key equals
the identifier, leaving every other record untouched. -/
def updateFirst (l : List (String × BookDoc)) (oid : String) (f : BookDoc → BookDoc) :
    List (String × BookDoc) :=
  match l with
  | [] => []
  | e :: rest => if e.1 == oid then (e.1, f e.2) :: rest else e :: updateFirst rest oid f

/-- Response of POST /api/books. -/
structure CreateBookResp where
  id : String
  status : String
  progress : Int

/-- Response of GET /api/books/id: the full record with the internal key
normalized to a string id field. -/
structure GetBookResp where
  id : String
  doc : BookDoc

/-- Request body of PUT /api/books/id (UpdateBookRequest in main.py): any
subset of the four optional fields; omitted fields are None and are dropped
by model_dump exclude_none. -/
structure UpdateBookRequest where
  meta : Option (List (String × Json))
  json_content : Option (List (String × Json))
  status : Option String
  progress : Option Int

/-- Response of PUT /api/books/id. -/
structure UpdateResp where
  id : String
  updated : Bool

/-- One entry of the GET /api/prices response; the hardcoded fallback
entries carry no store id. -/
structure PriceEntry where
  id : Option String
  sku : String
  label : String
  amountCents : Int
  currency : String

/-- Response of GET /api/prices. -/
structure PricesResp where
  prices : List PriceEntry

/-- Response of POST /api/orders. -/
structure OrderResp where
  id : String
  totalCents : Int

/-- Response of GET /api/books/id/download; expires_at is the expiry
instant (returned ISO-formatted by the code). -/
structure DownloadResp where
  url : String
  expires_at : Nat

/-- POST /api/books (create_book in main.py): build a Book with
status generating, priceCents 0, progress 1 and the given metadata
(all pydantic bounds hold for these constants), insert it, and return
the new identifier with the initial status and progress. -/
def create_book (db : DB) (meta : List (String × Json)) : CreateBookResp × DB :=
  let b : BookDoc :=
    { ownerId := none, meta := meta, json_content := [], status := "generating",
      priceCents := 0, progress := 1, download_url := none, expires_at := none,
      updated_at := none }
  let r := create_document_book db b
  ({ id := r.1, status := b.status, progress := b.progress }, r.2)

/-- GET /api/books/id (get_book in main.py): parse the identifier with
bson.ObjectId (a malformed one raises InvalidId before anything else), read
matching documents through the gateway, 404 when none, else return the first
with its key as a string id. -/
def get_book (db : DB) (book_id : String) : Except Err GetBookResp :=
  match parseOid book_id with
  | none => .error (.invalidId book_id)
  | some oid =>
    match get_documents_book db oid with
    | [] => .error (.notFound "Book not found")
    | d :: _ => .ok { id := d.1, doc := d.2 }

/-- The partial merge update_book applies: the provided fields of the
payload (model_dump exclude_none) plus an updated_at stamp, set onto the
stored document. -/
def applyUpdate (d : BookDoc) (u : UpdateBookRequest) (now : Nat) : BookDoc :=
  { d with
    meta := u.meta.getD d.meta
    json_content := u.json_content.getD d.json_content
    status := u.status.getD d.status
    progress := u.progress.getD d.progress
    updated_at := some now }

/-- PUT /api/books/id (update_book in main.py): 500 when the store is not
configured; InvalidId escapes on a malformed identifier; update_one with a
set of the provided fields plus updated_at; 404 when it matched nothing. -/
def update_book (st : Option DB) (book_id : String) (u : UpdateBookRequest)
    (now : Nat) : Except Err (UpdateResp × DB) :=
  match st with
  | none => .error (.unavailable "Database not configured")
  | some db =>
    match parseOid book_id with
    | none => .error (.invalidId book_id)
    | some oid =>
      match db.books.find? (fun e => e.1 == oid) with
      | none => .error (.notFound "Book not found")
      | some _ =>
        .ok ({ id := book_id, updated := true },
             { db with books := updateFirst db.books oid (fun d => applyUpdate d u now) })

/-- The two default catalog entries seeded by get_prices. -/
def ebookPrice : PriceDoc :=
  { sku := "ebook", label := "eBook (PDF)", amountCents := 1900, currency := "USD" }

/-- The hardcover default catalog entry. -/
def hardcoverPrice : PriceDoc :=
  { sku := "hardcover", label := "Hardcover", amountCents := 3900, currency := "USD" }

/-- The hardcoded fallback price list returned when the store is
unavailable; its entries carry no store id. -/
def fallbackPrices : List PriceEntry :=
  [ { id := none, sku := "ebook", label := "eBook (PDF)", amountCents := 1900,
      currency := "USD" },
    { id := none, sku := "hardcover", label := "Hardcover", amountCents := 3900,
      currency := "USD" } ]

/-- Shape a stored price record for the response: key becomes a string id. -/
def priceEntry (e : String × PriceDoc) : PriceEntry :=
  { id := some e.1, sku := e.2.sku, label := e.2.label,
    amountCents := e.2.amountCents, currency := e.2.currency }

/-- GET /api/prices (get_prices in main.py): fallback list when the store is
unavailable; otherwise seed the two default entries when the catalog is
empty, then return the full catalog with ids as strings. -/
def get_prices (st : Option DB) : PricesResp × Option DB :=
  match st with
  | none => ({ prices := fallbackPrices }, none)
  | some db =>
    if db.prices.isEmpty then
      let db1 := (create_document_price db ebookPrice).2
      let db2 := (create_document_price db1 hardcoverPrice).2
      ({ prices := db2.prices.map priceEntry }, some db2)
    else
      ({ prices := db.prices.map priceEntry }, some db)

/-- pydantic construction of an Order record (schemas.Order): the four cent
fields carry a ge 0 bound, so construction fails (ValidationError) when any
is negative; currency and status take their defaults USD and created. -/
def mkOrder (bookId sku : String) (sub ship disc tot : Int) : Option OrderDoc :=
  if 0 ≤ sub ∧ 0 ≤ ship ∧ 0 ≤ disc ∧ 0 ≤ tot then
    some { bookId := bookId, ownerId := none,
           items := [[("sku", Json.str sku), ("qty", Json.num 1),
                      ("amountCents", Json.num sub)]],
           subtotalCents := sub, shippingCents := ship, discountCents := disc,
           totalCents := tot, currency := "USD", status := "created" }
  else none

/-- The price amount create_order uses for a sku: the stored catalog entry
when one matches, else the lenient hardcoded 1900-cents default. -/
def lookupAmount (db : DB) (sku : String) : Int :=
  match db.prices.find? (fun e => e.2.sku == sku) with
  | some e => e.2.amountCents
  | none => 1900

/-- POST /api/orders (create_order in main.py): 500 when the store is not
configured; InvalidId escapes on a malformed book identifier; 404 when the
book does not exist; price looked up by sku with the lenient 1900-cents
fallback; subtotal the price amount, shipping and discount 0, total their
sum; one order inserted, id and total returned. -/
def create_order (st : Option DB) (bookId sku : String) :
    Except Err (OrderResp × DB) :=
  match st with
  | none => .error (.unavailable "Database not configured")
  | some db =>
    match parseOid bookId with
    | none => .error (.invalidId bookId)
    | some oid =>
      match findBook db.books oid with
      | none => .error (.notFound "Book not found")
      | some _ =>
        let subtotal : Int := lookupAmount db sku
        let shipping : Int := 0
        let discount : Int := 0
        let total := subtotal + shipping - discount
        match mkOrder bookId sku subtotal shipping discount total with
        | none => .error (.validationError "Order")
        | some o =>
          let r := create_document_order db o
          .ok ({ id := r.1, totalCents := total }, r.2)

/-- The URL string the download endpoint fabricates: the fixed template
embedding the route identifier and the expiry unix timestamp. -/
def downloadUrl (book_id : String) (exp : Nat) : String :=
  "https://files.example.com/download/" ++ book_id ++ "?exp=" ++ toString exp

/-- The set update the download endpoint persists onto the book:
download_url and expires_at. -/
def setLink (book_id : String) (now : Nat) (d : BookDoc) : BookDoc :=
  { d with download_url := some (downloadUrl book_id (now + 86400)),
           expires_at := some (now + 86400) }

/-- GET /api/books/id/download (get_download_link in main.py): 500 when the
store is not configured; InvalidId escapes on a malformed identifier; 400
when the book is absent or its status is not ready; otherwise build the
download URL embedding the identifier and an expiry 24 hours (86400 s)
ahead, persist both onto the book, and return them. -/
def get_download_link (st : Option DB) (book_id : String) (now : Nat) :
    Except Err (DownloadResp × DB) :=
  match st with
  | none => .error (.unavailable "Database not configured")
  | some db =>
    match parseOid book_id with
    | none => .error (.invalidId book_id)
    | some oid =>
      match findBook db.books oid with
      | none => .error (.badRequest "Book not ready")
      | some b =>
        if b.status = "ready" then
          .ok ({ url := downloadUrl book_id (now + 86400),
                 expires_at := now + 86400 },
               { db with books := updateFirst db.books oid (setLink book_id now) })
        else .error (.badRequest "Book not ready")

/-
Helper lemmas about the store operations.
-/

/-- A successful find? splits the list around the first matching record, and
updateFirst rewrites exactly that record. -/
theorem find_split (l : List (String × BookDoc)) (oid : String)
    (p : String × BookDoc) (h : l.find? (fun e => e.1 == oid) = some p) :
    ∃ l1 l2, l = l1 ++ p :: l2 ∧ (∀ e ∈ l1, (e.1 == oid) = false) ∧ p.1 = oid ∧
      ∀ f, updateFirst l oid f = l1 ++ (p.1, f p.2) :: l2 := by
  induction l with
  | nil => simp [List.find?] at h
  | cons hd tl ih =>
    cases hk : (hd.1 == oid) with
    | true =>
      simp only [List.find?_cons, hk] at h
      obtain rfl : hd = p := by injection h
      refine ⟨[], tl, by simp, by simp, eq_of_beq hk, ?_⟩
      intro f
      simp [updateFirst, hk]
    | false =>
      simp only [List.find?_cons, hk] at h
      obtain ⟨l1, l2, hsplit, hnone, hkey, hupd⟩ := ih h
      refine ⟨hd :: l1, l2, by simp [hsplit], ?_, hkey, ?_⟩
      · intro e he
        rcases List.mem_cons.mp he with rfl | he2
        · exact hk
        · exact hnone e he2
      · intro f
        simp [updateFirst, hk, hupd f]

/-- find? after updateFirst at the same key returns the rewritten record. -/
theorem find?_updateFirst (l : List (String × BookDoc)) (oid : String)
    (f : BookDoc → BookDoc) :
    (updateFirst l oid f).find? (fun e => e.1 == oid) =
      (l.find? (fun e => e.1 == oid)).map (fun p => (p.1, f p.2)) := by
  induction l with
  | nil => simp [updateFirst]
  | cons hd tl ih =>
    cases hk : (hd.1 == oid) with
    | true => simp [updateFirst, hk, List.find?_cons]
    | false =>
      simp only [updateFirst, hk, Bool.false_eq_true, if_false]
      simp only [List.find?_cons, hk]
      exact ih

/-- findBook after updateFirst at the same key maps the stored book by f. -/
theorem findBook_updateFirst (l : List (String × BookDoc)) (oid : String)
    (f : BookDoc → BookDoc) :
    findBook (updateFirst l oid f) oid = (findBook l oid).map f := by
  simp [findBook, find?_updateFirst]
  cases l.find? (fun e => e.1 == oid) <;> simp

/-- Every record of updateFirst l oid f is a record of l or the image by f
of a record of l. -/
theorem mem_updateFirst (l : List (String × BookDoc)) (oid : String)
    (f : BookDoc → BookDoc) (e : String × BookDoc)
    (h : e ∈ updateFirst l oid f) :
    e ∈ l ∨ ∃ k d, (k, d) ∈ l ∧ e = (k, f d) := by
  induction l with
  | nil => simp [updateFirst] at h
  | cons hd tl ih =>
    cases hk : (hd.1 == oid) with
    | true =>
      simp only [updateFirst, hk, if_true] at h
      rcases List.mem_cons.mp h with rfl | h2
      · exact Or.inr ⟨hd.1, hd.2, List.mem_cons_self _ _, rfl⟩
      · exact Or.inl (List.mem_cons_of_mem _ h2)
    | false =>
      simp only [updateFirst, hk, Bool.false_eq_true, if_false] at h
      rcases List.mem_cons.mp h with rfl | h2
      · exact Or.inl (List.mem_cons_self _ _)
      · rcases ih h2 with h3 | ⟨k, d, hm, hed⟩
        · exact Or.inl (List.mem_cons_of_mem _ h3)
        · exact Or.inr ⟨k, d, List.mem_cons_of_mem _ hm, hed⟩

/-
C4 and C6.
-/

/-- C4: for every metadata input, POST /api/books persists a Book with
status generating, progress 1 and price 0 as exactly one insertion into the
book collection (every other collection untouched), and returns the new
identifier with status generating and progress 1. -/
theorem create_book_spec (db : DB) (meta : List (String × Json)) :
    (create_book db meta).1 =
      { id := freshId db.nextId, status := "generating", progress := 1 } ∧
    (create_book db meta).2.books = db.books ++
      [(freshId db.nextId,
        { ownerId := none, meta := meta, json_content := [],
          status := "generating", priceCents := 0, progress := 1,
          download_url := none, expires_at := none, updated_at := none })] ∧
    (create_book db meta).2.prices = db.prices ∧
    (create_book db meta).2.orders = db.orders ∧
    (create_book db meta).2.nextId = db.nextId + 1 :=
  ⟨rfl, rfl, rfl, rfl, rfl⟩

/-- C6: when the store is unavailable, GET /api/prices does not fail: it
returns the hardcoded two-entry fallback list (ebook 1900, hardcover 3900,
USD) and persists nothing (the state stays the unavailable store). -/
theorem get_prices_unavailable :
    get_prices none =
      ({ prices := [ { id := none, sku := "ebook", label := "eBook (PDF)",
                       amountCents := 1900, currency := "USD" },
                     { id := none, sku := "hardcover", label := "Hardcover",
                       amountCents := 3900, currency := "USD" } ] }, none) :=
  rfl

/-
Lemmas about order construction and create_order.
-/

/-- A successful pydantic Order construction pins every field and certifies
the ge-0 bounds. -/
theorem mkOrder_spec (bookId sku : String) (sub ship disc tot : Int)
    (o : OrderDoc) (h : mkOrder bookId sku sub ship disc tot = some o) :
    0 ≤ sub ∧ 0 ≤ ship ∧ 0 ≤ disc ∧ 0 ≤ tot ∧
    o.bookId = bookId ∧ o.subtotalCents = sub ∧ o.shippingCents = ship ∧
    o.discountCents = disc ∧ o.totalCents = tot ∧ o.currency = "USD" ∧
    o.status = "created" := by
  unfold mkOrder at h
  split at h
  · rename_i hc
    injection h with h2
    subst h2
    exact ⟨hc.1, hc.2.1, hc.2.2.1, hc.2.2.2, rfl, rfl, rfl, rfl, rfl, rfl, rfl⟩
  · exact Option.noConfusion h

/-- Inversion of a successful create_order: the identifier parsed, the book
was found, the order validated, and the response and new state have the
stated shape. -/
theorem create_order_ok_cases {db0 : DB} {bookId sku : String}
    {resp : OrderResp} {db1 : DB}
    (h : create_order (some db0) bookId sku = Except.ok (resp, db1)) :
    ∃ oid b o, parseOid bookId = some oid ∧ findBook db0.books oid = some b ∧
      mkOrder bookId sku (lookupAmount db0 sku) 0 0
        (lookupAmount db0 sku + 0 - 0) = some o ∧
      resp = { id := freshId db0.nextId,
               totalCents := lookupAmount db0 sku + 0 - 0 } ∧
      db1 = { db0 with
              orders := db0.orders ++ [(freshId db0.nextId, o)],
              nextId := db0.nextId + 1 } := by
  simp only [create_order] at h
  split at h
  · exact Except.noConfusion h
  · rename_i oid hoid
    split at h
    · exact Except.noConfusion h
    · rename_i b hb
      simp only [create_document_order] at h
      split at h
      · exact Except.noConfusion h
      · rename_i o hmk
        injection h with h2
        injection h2 with hresp hdb
        exact ⟨oid, b, o, hoid, hb, hmk, hresp.symm, hdb.symm⟩

/-
Concrete fixtures used by witness instances.
-/

/-- A well-formed 24-hex-char identifier for concrete instances. -/
def wId : String := "aaaaaaaaaaaaaaaaaaaaaaaa"

/-- A concrete stored book in ready state. -/
def wBook : BookDoc :=
  { ownerId := none, meta := [], json_content := [], status := "ready",
    priceCents := 0, progress := 50, download_url := none, expires_at := none,
    updated_at := none }

/-- A concrete store with one ready book, an empty catalog, no orders. -/
def Wdb : DB :=
  { books := [(wId, wBook)], prices := [], orders := [], nextId := 0 }

/-- The order create_order builds in Wdb for sku ebook (catalog empty, so
the 1900-cents default applies). -/
def WOrderEbk : OrderDoc :=
  { bookId := wId, ownerId := none,
    items := [[("sku", Json.str "ebook"), ("qty", Json.num 1),
               ("amountCents", Json.num 1900)]],
    subtotalCents := 1900, shippingCents := 0, discountCents := 0,
    totalCents := 1900, currency := "USD", status := "created" }

/-- Wdb after that order creation. -/
def Wdb1 : DB :=
  { books := [(wId, wBook)], prices := [],
    orders := [(freshId 0, WOrderEbk)], nextId := 1 }

/-- C1: every order persisted by a successful POST /api/orders satisfies
total = subtotal + shipping - discount with shipping = 0 and discount = 0,
hence total = subtotal, and total is nonnegative. -/
theorem order_total_invariant (db0 : DB) (bookId sku : String)
    (resp : OrderResp) (db1 : DB)
    (h : create_order (some db0) bookId sku = Except.ok (resp, db1)) :
    ∃ oidNew o, db1.orders = db0.orders ++ [(oidNew, o)] ∧
      o.totalCents = o.subtotalCents + o.shippingCents - o.discountCents ∧
      o.shippingCents = 0 ∧ o.discountCents = 0 ∧
      o.totalCents = o.subtotalCents ∧ 0 ≤ o.totalCents := by
  obtain ⟨oid, b, o, hp, hf, hmk, hresp, hdb⟩ := create_order_ok_cases h
  obtain ⟨hs1, hs2, hs3, hs4, eb, es, eh, ed, et, ec, est⟩ :=
    mkOrder_spec _ _ _ _ _ _ _ hmk
  subst hdb
  refine ⟨freshId db0.nextId, o, rfl, ?_, ?_, ?_, ?_, ?_⟩ <;> omega

/-- Concrete instance of order_total_invariant in Wdb. -/
theorem order_total_invariant_witness :
    create_order (some Wdb) wId "ebook" =
      Except.ok ({ id := freshId 0, totalCents := 1900 }, Wdb1) ∧
    (∃ oidNew o, Wdb1.orders = Wdb.orders ++ [(oidNew, o)] ∧
      o.totalCents = o.subtotalCents + o.shippingCents - o.discountCents ∧
      o.shippingCents = 0 ∧ o.discountCents = 0 ∧
      o.totalCents = o.subtotalCents ∧ 0 ≤ o.totalCents) :=
  ⟨rfl, order_total_invariant Wdb wId "ebook"
    { id := freshId 0, totalCents := 1900 } Wdb1 rfl⟩

/-- C10: every order persisted by a successful POST /api/orders has currency
USD: the price record currency field is never copied onto the order. -/
theorem order_currency_usd (db0 : DB) (bookId sku : String)
    (resp : OrderResp) (db1 : DB)
    (h : create_order (some db0) bookId sku = Except.ok (resp, db1)) :
    ∃ oidNew o, db1.orders = db0.orders ++ [(oidNew, o)] ∧
      o.currency = "USD" := by
  obtain ⟨oid, b, o, hp, hf, hmk, hresp, hdb⟩ := create_order_ok_cases h
  obtain ⟨_, _, _, _, _, _, _, _, _, ec, _⟩ := mkOrder_spec _ _ _ _ _ _ _ hmk
  subst hdb
  exact ⟨freshId db0.nextId, o, rfl, ec⟩

/-- A catalog entry whose stored currency is EUR, for the currency claim. -/
def WPriceEur : PriceDoc :=
  { sku := "ebook", label := "eBook (PDF)", amountCents := 500,
    currency := "EUR" }

/-- A store holding the EUR-priced catalog entry and the ready book. -/
def WdbEur : DB :=
  { books := [(wId, wBook)], prices := [("cafebabe", WPriceEur)],
    orders := [], nextId := 3 }

/-- The order create_order builds in WdbEur for sku ebook: amount 500 from
the matched entry, currency USD regardless of its EUR. -/
def WOrderEur : OrderDoc :=
  { bookId := wId, ownerId := none,
    items := [[("sku", Json.str "ebook"), ("qty", Json.num 1),
               ("amountCents", Json.num 500)]],
    subtotalCents := 500, shippingCents := 0, discountCents := 0,
    totalCents := 500, currency := "USD", status := "created" }

/-- WdbEur after that order creation. -/
def WdbEur1 : DB :=
  { books := [(wId, wBook)], prices := [("cafebabe", WPriceEur)],
    orders := [(freshId 3, WOrderEur)], nextId := 4 }

/-- Concrete instance of order_currency_usd against an EUR catalog entry. -/
theorem order_currency_usd_witness :
    create_order (some WdbEur) wId "ebook" =
      Except.ok ({ id := freshId 3, totalCents := 500 }, WdbEur1) ∧
    (∃ oidNew o, WdbEur1.orders = WdbEur.orders ++ [(oidNew, o)] ∧
      o.currency = "USD") :=
  ⟨rfl, order_currency_usd WdbEur wId "ebook"
    { id := freshId 3, totalCents := 500 } WdbEur1 rfl⟩

/-- C7: with an existing book and a sku matching no catalog entry, POST
/api/orders succeeds using the 1900-cents USD default: response total 1900,
persisted order subtotal 1900, total 1900, currency USD. -/
theorem order_unknown_sku_default (db : DB) (bookId sku oid : String)
    (b : BookDoc) (hp : parseOid bookId = some oid)
    (hb : findBook db.books oid = some b)
    (hs : db.prices.find? (fun e => e.2.sku == sku) = none) :
    ∃ resp db1, create_order (some db) bookId sku = Except.ok (resp, db1) ∧
      resp.totalCents = 1900 ∧
      ∃ o, db1.orders = db.orders ++ [(freshId db.nextId, o)] ∧
        o.subtotalCents = 1900 ∧ o.totalCents = 1900 ∧ o.currency = "USD" := by
  have hla : lookupAmount db sku = 1900 := by simp [lookupAmount, hs]
  simp only [create_order, hp, hb, hla, create_document_order]
  norm_num [mkOrder]
  exact ⟨_, _, ⟨rfl, rfl⟩, rfl, ⟨_, rfl, rfl, rfl, rfl⟩⟩

/-- Concrete instance of order_unknown_sku_default: sku poster is absent
from the empty catalog of Wdb. -/
theorem order_unknown_sku_default_witness :
    parseOid wId = some wId ∧ findBook Wdb.books wId = some wBook ∧
    Wdb.prices.find? (fun e => e.2.sku == "poster") = none ∧
    (∃ resp db1, create_order (some Wdb) wId "poster" = Except.ok (resp, db1) ∧
      resp.totalCents = 1900 ∧
      ∃ o, db1.orders = Wdb.orders ++ [(freshId Wdb.nextId, o)] ∧
        o.subtotalCents = 1900 ∧ o.totalCents = 1900 ∧ o.currency = "USD") :=
  ⟨rfl, rfl, rfl,
    order_unknown_sku_default Wdb wId "poster" wId wBook rfl rfl rfl⟩

/-
C3: fetching a book.
-/

/-- C3 counterexample: fetching with the malformed identifier zzz does not
yield NotFound — bson.ObjectId raises InvalidId before the lookup, an
unhandled exception the framework surfaces as 500, so the claim fails as
stated for malformed identifiers. -/
theorem get_book_malformed_not_notFound :
    get_book Wdb "zzz" = Except.error (Err.invalidId "zzz") ∧
    ∀ d, get_book Wdb "zzz" ≠ Except.error (Err.notFound d) := by
  refine ⟨rfl, ?_⟩
  intro d h
  rw [show get_book Wdb "zzz" = Except.error (Err.invalidId "zzz") from rfl] at h
  injection h with h2
  exact Err.noConfusion h2

/-- C3 (amended): fetching with a well-formed identifier that matches no
stored record yields NotFound (404); fetching with a malformed identifier
instead raises InvalidId (surfaced as 500), not NotFound. -/
theorem get_book_notFound_cases (db : DB) (s : String) :
    (parseOid s = none → get_book db s = Except.error (Err.invalidId s)) ∧
    (∀ oid, parseOid s = some oid → (∀ e ∈ db.books, e.1 ≠ oid) →
      get_book db s = Except.error (Err.notFound "Book not found")) := by
  constructor
  · intro hp
    simp [get_book, hp]
  · intro oid hp hno
    have hfilter : db.books.filter (fun e => e.1 == oid) = [] := by
      rw [List.filter_eq_nil_iff]
      intro e he
      simpa using hno e he
    simp [get_book, hp, get_documents_book, hfilter]

/-- Concrete instance of get_book_notFound_cases: zzz is malformed, and the
well-formed identifier of all b digits matches nothing in Wdb. -/
theorem get_book_notFound_cases_witness :
    parseOid "zzz" = none ∧
    get_book Wdb "zzz" = Except.error (Err.invalidId "zzz") ∧
    parseOid "bbbbbbbbbbbbbbbbbbbbbbbb" = some "bbbbbbbbbbbbbbbbbbbbbbbb" ∧
    get_book Wdb "bbbbbbbbbbbbbbbbbbbbbbbb" =
      Except.error (Err.notFound "Book not found") :=
  ⟨rfl, (get_book_notFound_cases Wdb "zzz").1 rfl, rfl,
    (get_book_notFound_cases Wdb "bbbbbbbbbbbbbbbbbbbbbbbb").2
      "bbbbbbbbbbbbbbbbbbbbbbbb" rfl (by decide)⟩

/-
C5: price catalog seeding.
-/

/-- C5: starting from an empty catalog, the first GET /api/prices inserts
exactly the two fixed entries (ebook 1900, hardcover 3900, USD) and returns
them; a second sequential call returns the same two entries and leaves the
store exactly as the first call left it (no further insertion). -/
theorem get_prices_seed_idempotent (db : DB) (h : db.prices = []) :
    ∃ db1, get_prices (some db) =
      ({ prices := [
          { id := some (freshId db.nextId), sku := "ebook",
            label := "eBook (PDF)", amountCents := 1900, currency := "USD" },
          { id := some (freshId (db.nextId + 1)), sku := "hardcover",
            label := "Hardcover", amountCents := 3900, currency := "USD" } ] },
        some db1) ∧
      db1.prices = [(freshId db.nextId, ebookPrice),
                    (freshId (db.nextId + 1), hardcoverPrice)] ∧
      db1.books = db.books ∧ db1.orders = db.orders ∧
      get_prices (some db1) =
        ({ prices := [
            { id := some (freshId db.nextId), sku := "ebook",
              label := "eBook (PDF)", amountCents := 1900, currency := "USD" },
            { id := some (freshId (db.nextId + 1)), sku := "hardcover",
              label := "Hardcover", amountCents := 3900, currency := "USD" } ] },
          some db1) := by
  refine ⟨{ books := db.books,
            prices := [(freshId db.nextId, ebookPrice),
                       (freshId (db.nextId + 1), hardcoverPrice)],
            orders := db.orders, nextId := db.nextId + 2 }, ?_, rfl, rfl, rfl, ?_⟩
  · simp [get_prices, h, create_document_price, priceEntry,
          ebookPrice, hardcoverPrice]
  · simp [get_prices, priceEntry, ebookPrice, hardcoverPrice]

/-- A concrete fully empty store. -/
def WdbEmpty : DB := { books := [], prices := [], orders := [], nextId := 0 }

/-- Concrete instance of get_prices_seed_idempotent on the empty store. -/
theorem get_prices_seed_idempotent_witness :
    WdbEmpty.prices = [] ∧
    (∃ db1, get_prices (some WdbEmpty) =
      ({ prices := [
          { id := some (freshId WdbEmpty.nextId), sku := "ebook",
            label := "eBook (PDF)", amountCents := 1900, currency := "USD" },
          { id := some (freshId (WdbEmpty.nextId + 1)), sku := "hardcover",
            label := "Hardcover", amountCents := 3900, currency := "USD" } ] },
        some db1) ∧
      db1.prices = [(freshId WdbEmpty.nextId, ebookPrice),
                    (freshId (WdbEmpty.nextId + 1), hardcoverPrice)] ∧
      db1.books = WdbEmpty.books ∧ db1.orders = WdbEmpty.orders ∧
      get_prices (some db1) =
        ({ prices := [
            { id := some (freshId WdbEmpty.nextId), sku := "ebook",
              label := "eBook (PDF)", amountCents := 1900, currency := "USD" },
            { id := some (freshId (WdbEmpty.nextId + 1)), sku := "hardcover",
              label := "Hardcover", amountCents := 3900, currency := "USD" } ] },
          some db1)) :=
  ⟨rfl, get_prices_seed_idempotent WdbEmpty rfl⟩

/-
C8: update frame property.
-/

/-- C8: updating an existing book succeeds and writes only the provided
subset of the four updatable fields plus the update timestamp onto that one
record: every omitted field keeps its stored value, every non-updatable
field (owner, price, download URL, link expiry) is untouched, every other
record and collection is untouched, and the empty subset changes the
timestamp alone. -/
theorem update_book_frame (db : DB) (book_id : String) (u : UpdateBookRequest)
    (now : Nat) (oid : String) (p : String × BookDoc)
    (hp : parseOid book_id = some oid)
    (hf : db.books.find? (fun e => e.1 == oid) = some p) :
    ∃ l1 l2 db1 d2, db.books = l1 ++ p :: l2 ∧
      update_book (some db) book_id u now =
        Except.ok ({ id := book_id, updated := true }, db1) ∧
      db1.books = l1 ++ (p.1, d2) :: l2 ∧
      db1.prices = db.prices ∧ db1.orders = db.orders ∧
      db1.nextId = db.nextId ∧
      (∀ m, u.meta = some m → d2.meta = m) ∧
      (u.meta = none → d2.meta = p.2.meta) ∧
      (∀ c, u.json_content = some c → d2.json_content = c) ∧
      (u.json_content = none → d2.json_content = p.2.json_content) ∧
      (∀ s, u.status = some s → d2.status = s) ∧
      (u.status = none → d2.status = p.2.status) ∧
      (∀ n, u.progress = some n → d2.progress = n) ∧
      (u.progress = none → d2.progress = p.2.progress) ∧
      d2.updated_at = some now ∧
      d2.ownerId = p.2.ownerId ∧ d2.priceCents = p.2.priceCents ∧
      d2.download_url = p.2.download_url ∧ d2.expires_at = p.2.expires_at ∧
      (u = { meta := none, json_content := none, status := none,
             progress := none } →
        d2 = { p.2 with updated_at := some now }) := by
  obtain ⟨l1, l2, hsplit, hnone, hkey, hupd⟩ := find_split db.books oid p hf
  refine ⟨l1, l2,
    { db with books := updateFirst db.books oid (fun d => applyUpdate d u now) },
    applyUpdate p.2 u now, hsplit, ?_, ?_, rfl, rfl, rfl,
    ?_, ?_, ?_, ?_, ?_, ?_, ?_, ?_, rfl, rfl, rfl, rfl, rfl, ?_⟩
  · simp only [update_book, hp, hf]
  · rw [hupd]
  · intro m hm; simp [applyUpdate, hm]
  · intro hm; simp [applyUpdate, hm]
  · intro c hc; simp [applyUpdate, hc]
  · intro hc; simp [applyUpdate, hc]
  · intro s hs; simp [applyUpdate, hs]
  · intro hs; simp [applyUpdate, hs]
  · intro n hn; simp [applyUpdate, hn]
  · intro hn; simp [applyUpdate, hn]
  · intro hu; subst hu; simp [applyUpdate]

/-- Concrete instance of update_book_frame: the empty update on the stored
book of Wdb at time 7. -/
theorem update_book_frame_witness :
    parseOid wId = some wId ∧
    Wdb.books.find? (fun e => e.1 == wId) = some (wId, wBook) ∧
    (∃ l1 l2 db1 d2, Wdb.books = l1 ++ (wId, wBook) :: l2 ∧
      update_book (some Wdb) wId
        { meta := none, json_content := none, status := none,
          progress := none } 7 =
        Except.ok ({ id := wId, updated := true }, db1) ∧
      db1.books = l1 ++ ((wId, wBook).1, d2) :: l2 ∧
      db1.prices = Wdb.prices ∧ db1.orders = Wdb.orders ∧
      db1.nextId = Wdb.nextId ∧
      (∀ m, (none : Option (List (String × Json))) = some m → d2.meta = m) ∧
      ((none : Option (List (String × Json))) = none →
        d2.meta = (wId, wBook).2.meta) ∧
      (∀ c, (none : Option (List (String × Json))) = some c →
        d2.json_content = c) ∧
      ((none : Option (List (String × Json))) = none →
        d2.json_content = (wId, wBook).2.json_content) ∧
      (∀ s, (none : Option String) = some s → d2.status = s) ∧
      ((none : Option String) = none → d2.status = (wId, wBook).2.status) ∧
      (∀ n, (none : Option Int) = some n → d2.progress = n) ∧
      ((none : Option Int) = none → d2.progress = (wId, wBook).2.progress) ∧
      d2.updated_at = some 7 ∧
      d2.ownerId = (wId, wBook).2.ownerId ∧
      d2.priceCents = (wId, wBook).2.priceCents ∧
      d2.download_url = (wId, wBook).2.download_url ∧
      d2.expires_at = (wId, wBook).2.expires_at ∧
      (({ meta := none, json_content := none, status := none,
          progress := none } : UpdateBookRequest) =
        { meta := none, json_content := none, status := none,
          progress := none } →
        d2 = { (wId, wBook).2 with updated_at := some 7 })) :=
  ⟨rfl, rfl, update_book_frame Wdb wId
    { meta := none, json_content := none, status := none, progress := none }
    7 wId (wId, wBook) rfl rfl⟩

/-
C2: download-link issuance.
-/

/-- C2: download-link issuance fails whenever the book is absent (store
unconfigured, malformed identifier, or no matching record) or its status is
not ready; with status ready it succeeds, returns a URL embedding the
identifier and an expiry exactly 24 hours (86400 s) after the current time,
and persists both onto that book, touching nothing else. -/
theorem download_link_spec :
    (∀ book_id now, get_download_link none book_id now =
      Except.error (Err.unavailable "Database not configured")) ∧
    (∀ db book_id now, parseOid book_id = none →
      get_download_link (some db) book_id now =
        Except.error (Err.invalidId book_id)) ∧
    (∀ db book_id now oid, parseOid book_id = some oid →
      findBook db.books oid = none →
      get_download_link (some db) book_id now =
        Except.error (Err.badRequest "Book not ready")) ∧
    (∀ db book_id now oid b, parseOid book_id = some oid →
      findBook db.books oid = some b → b.status ≠ "ready" →
      get_download_link (some db) book_id now =
        Except.error (Err.badRequest "Book not ready")) ∧
    (∀ db book_id now oid b, parseOid book_id = some oid →
      findBook db.books oid = some b → b.status = "ready" →
      ∃ db1, get_download_link (some db) book_id now =
        Except.ok ({ url := "https://files.example.com/download/" ++ book_id ++
                            "?exp=" ++ toString (now + 86400),
                     expires_at := now + 86400 }, db1) ∧
        findBook db1.books oid = some
          { b with
            download_url := some ("https://files.example.com/download/" ++
                                  book_id ++ "?exp=" ++ toString (now + 86400)),
            expires_at := some (now + 86400) } ∧
        db1.prices = db.prices ∧ db1.orders = db.orders ∧
        db1.nextId = db.nextId) := by
  refine ⟨fun _ _ => rfl, ?_, ?_, ?_, ?_⟩
  · intro db book_id now hp
    simp [get_download_link, hp]
  · intro db book_id now oid hp hb
    simp [get_download_link, hp, hb]
  · intro db book_id now oid b hp hb hs
    simp [get_download_link, hp, hb, hs]
  · intro db book_id now oid b hp hb hs
    refine ⟨{ db with books := updateFirst db.books oid (setLink book_id now) },
      ?_, ?_, rfl, rfl, rfl⟩
    · simp [get_download_link, hp, hb, hs, downloadUrl]
    · rw [findBook_updateFirst, hb]
      rfl

/-- Concrete instance of download_link_spec: the ready book of Wdb at time
1000. -/
theorem download_link_spec_witness :
    parseOid wId = some wId ∧ findBook Wdb.books wId = some wBook ∧
    wBook.status = "ready" ∧
    (∃ db1, get_download_link (some Wdb) wId 1000 =
      Except.ok ({ url := "https://files.example.com/download/" ++ wId ++
                          "?exp=" ++ toString (1000 + 86400),
                   expires_at := 1000 + 86400 }, db1) ∧
      findBook db1.books wId = some
        { wBook with
          download_url := some ("https://files.example.com/download/" ++
                                wId ++ "?exp=" ++ toString (1000 + 86400)),
          expires_at := some (1000 + 86400) } ∧
      db1.prices = Wdb.prices ∧ db1.orders = Wdb.orders ∧
      db1.nextId = Wdb.nextId) :=
  ⟨rfl, rfl, rfl,
    download_link_spec.2.2.2.2 Wdb wId 1000 wId wBook rfl rfl rfl⟩

/-
C9: the progress bound.
-/

/-- The update request that writes progress 150, out of the documented
bound. -/
def UOver : UpdateBookRequest :=
  { meta := none, json_content := none, status := none, progress := some 150 }

/-- Wdb after the unvalidated update wrote progress 150 at time 0. -/
def WdbOver : DB :=
  { books := [(wId, { wBook with progress := 150, updated_at := some 0 })],
    prices := [], orders := [], nextId := 0 }

/-- C9 counterexample: starting from a store whose every book satisfies the
0..100 progress bound, the update endpoint accepts progress 150 (no bound
is enforced on UpdateBookRequest) and persists it, so the bound is not
preserved by every operation. -/
theorem progress_bound_counterexample :
    (∀ e ∈ Wdb.books, 0 ≤ e.2.progress ∧ e.2.progress ≤ 100) ∧
    update_book (some Wdb) wId UOver 0 =
      Except.ok ({ id := wId, updated := true }, WdbOver) ∧
    ¬ (∀ e ∈ WdbOver.books, 0 ≤ e.2.progress ∧ e.2.progress ≤ 100) := by
  refine ⟨by decide, rfl, ?_⟩
  intro hall
  have h150 := hall (wId, { wBook with progress := 150, updated_at := some 0 })
    (by simp [WdbOver])
  exact absurd h150.2 (by decide)

/-- C9 (amended): every book written by book creation, order creation or
download-link issuance keeps progress within 0..100 when every stored book
already satisfies it; book update also preserves the bound, but only when
the provided progress, if present, is itself within 0..100 — the update
path validates nothing, so an out-of-range progress is written as-is. -/
theorem progress_bound_preserved :
    (∀ db meta, (∀ e ∈ db.books, 0 ≤ e.2.progress ∧ e.2.progress ≤ 100) →
      ∀ e ∈ (create_book db meta).2.books,
        0 ≤ e.2.progress ∧ e.2.progress ≤ 100) ∧
    (∀ db bookId sku resp db1,
      (∀ e ∈ db.books, 0 ≤ e.2.progress ∧ e.2.progress ≤ 100) →
      create_order (some db) bookId sku = Except.ok (resp, db1) →
      ∀ e ∈ db1.books, 0 ≤ e.2.progress ∧ e.2.progress ≤ 100) ∧
    (∀ db book_id now resp db1,
      (∀ e ∈ db.books, 0 ≤ e.2.progress ∧ e.2.progress ≤ 100) →
      get_download_link (some db) book_id now = Except.ok (resp, db1) →
      ∀ e ∈ db1.books, 0 ≤ e.2.progress ∧ e.2.progress ≤ 100) ∧
    (∀ db book_id u now resp db1,
      (∀ e ∈ db.books, 0 ≤ e.2.progress ∧ e.2.progress ≤ 100) →
      (u.progress = none ∨ ∃ n, u.progress = some n ∧ 0 ≤ n ∧ n ≤ 100) →
      update_book (some db) book_id u now = Except.ok (resp, db1) →
      ∀ e ∈ db1.books, 0 ≤ e.2.progress ∧ e.2.progress ≤ 100) := by
  refine ⟨?_, ?_, ?_, ?_⟩
  · intro db meta hb e he
    simp only [create_book, create_document_book] at he
    rcases List.mem_append.mp he with h1 | h2
    · exact hb e h1
    · obtain rfl := List.mem_singleton.mp h2
      exact ⟨by norm_num, by norm_num⟩
  · intro db bookId sku resp db1 hb h e he
    obtain ⟨_, _, _, _, _, _, _, hdb⟩ := create_order_ok_cases h
    subst hdb
    exact hb e he
  · intro db book_id now resp db1 hb h e he
    simp only [get_download_link] at h
    split at h
    · exact Except.noConfusion h
    · split at h
      · exact Except.noConfusion h
      · split at h
        · injection h with h2
          injection h2 with hresp hdb
          rw [← hdb] at he
          rcases mem_updateFirst _ _ _ _ he with h1 | ⟨k, d, hm, rfl⟩
          · exact hb e h1
          · exact hb (k, d) hm
        · exact Except.noConfusion h
  · intro db book_id u now resp db1 hb hu h e he
    simp only [update_book] at h
    split at h
    · exact Except.noConfusion h
    · split at h
      · exact Except.noConfusion h
      · injection h with h2
        injection h2 with hresp hdb
        rw [← hdb] at he
        rcases mem_updateFirst _ _ _ _ he with h1 | ⟨k, d, hm, rfl⟩
        · exact hb e h1
        · have hd := hb (k, d) hm
          rcases hu with hn | ⟨n, hn, hn0, hn100⟩
          · simpa [applyUpdate, hn] using hd
          · simp only [applyUpdate, hn]
            exact ⟨hn0, hn100⟩

/-- The in-bound update request writing progress 60. -/
def USome60 : UpdateBookRequest :=
  { meta := none, json_content := none, status := none, progress := some 60 }

/-- Wdb after that update at time 3. -/
def Wdb60 : DB :=
  { books := [(wId, { wBook with progress := 60, updated_at := some 3 })],
    prices := [], orders := [], nextId := 0 }

/-- Concrete instance of progress_bound_preserved: updating Wdb with the
in-bound progress 60 keeps every stored progress within 0..100. -/
theorem progress_bound_preserved_witness :
    (∀ e ∈ Wdb.books, 0 ≤ e.2.progress ∧ e.2.progress ≤ 100) ∧
    (USome60.progress = none ∨
      ∃ n, USome60.progress = some n ∧ 0 ≤ n ∧ n ≤ 100) ∧
    update_book (some Wdb) wId USome60 3 =
      Except.ok ({ id := wId, updated := true }, Wdb60) ∧
    (∀ e ∈ Wdb60.books, 0 ≤ e.2.progress ∧ e.2.progress ≤ 100) :=
  ⟨by decide, Or.inr ⟨60, rfl, by norm_num, by norm_num⟩, rfl,
    progress_bound_preserved.2.2.2 Wdb wId USome60 3
      { id := wId, updated := true } Wdb60 (by decide)
      (Or.inr ⟨60, rfl, by norm_num, by norm_num⟩) rfl⟩
